import Mathlib

/-!
Verification development for the injective-price-oracle repository.

Go code is shallowly embedded: machine integers become `Nat`/`Int` with
explicit wrap reasoning where needed, Go strings are Lean `String`s (lists
of characters where proofs walk them), pointers become `Option`, fallible
functions return `Except` or pair an `Option` error, and external library
calls (duration parsing, decimal parsing, the chain SDK broadcast) are
passed in as function parameters.
-/

set_option maxHeartbeats 1000000

namespace Oracle

/-- Go `strings.Split(s, "/")` specialized to the one-character separator
used by `Ticker.Base` and `Ticker.Quote` (src/oracle/models.go:37-43),
over strings modelled as lists of characters. -/
def splitSlash : List Char → List (List Char)
  | [] => [[]]
  | c :: cs =>
    if c = '/' then [] :: splitSlash cs
    else
      match splitSlash cs with
      | [] => [[c]]
      | g :: gs => (c :: g) :: gs

/-- Occurrence count of a character, used to state well-formedness of tickers
(the spec: a well-formed Ticker contains exactly one slash). -/
def countChar (ch : Char) : List Char → Nat
  | [] => 0
  | c :: cs => (if c = ch then 1 else 0) + countChar ch cs

theorem splitSlash_ne_nil (l : List Char) : splitSlash l ≠ [] := by
  cases l with
  | nil => simp [splitSlash]
  | cons c cs =>
    simp only [splitSlash]
    by_cases h : c = '/'
    · simp [h]
    · simp only [h, if_false]
      cases hs : splitSlash cs <;> simp

theorem splitSlash_length (l : List Char) :
    (splitSlash l).length = countChar '/' l + 1 := by
  induction l with
  | nil => simp [splitSlash, countChar]
  | cons c cs ih =>
    simp only [splitSlash, countChar]
    by_cases h : c = '/'
    · simp only [h, if_true, List.length_cons, ih]
      omega
    · simp only [h, if_false]
      cases hs : splitSlash cs with
      | nil => exact absurd hs (splitSlash_ne_nil cs)
      | cons g gs =>
        rw [hs] at ih
        simp only [List.length_cons] at ih ⊢
        omega

theorem splitSlash_singleton (l : List Char) (x : List Char)
    (h : splitSlash l = [x]) : x = l := by
  induction l generalizing x with
  | nil =>
    simp only [splitSlash] at h
    simpa using h.symm
  | cons c cs ih =>
    simp only [splitSlash] at h
    by_cases hc : c = '/'
    · simp only [hc, if_true] at h
      have : splitSlash cs = [] := by
        cases hh : splitSlash cs
        · rfl
        · rw [hh] at h; simp at h
      exact absurd this (splitSlash_ne_nil cs)
    · simp only [hc, if_false] at h
      cases hs : splitSlash cs with
      | nil => exact absurd hs (splitSlash_ne_nil cs)
      | cons g gs =>
        rw [hs] at h
        have hx : x = c :: g ∧ gs = [] := by
          constructor
          · exact (List.cons_eq_cons.mp h).1.symm
          · exact (List.cons_eq_cons.mp h).2.symm ▸ rfl
        rcases hx with ⟨hx1, hx2⟩
        subst hx2
        have hg : g = cs := ih g (by rw [hs])
        rw [hx1, hg]

theorem splitSlash_pair (l : List Char) (a b : List Char)
    (h : splitSlash l = [a, b]) : a ++ '/' :: b = l := by
  induction l generalizing a b with
  | nil =>
    simp only [splitSlash] at h
    simp at h
  | cons c cs ih =>
    simp only [splitSlash] at h
    by_cases hc : c = '/'
    · simp only [hc, if_true] at h
      have ha : a = [] := ((List.cons_eq_cons.mp h).1).symm
      have hcs : splitSlash cs = [b] := (List.cons_eq_cons.mp h).2
      have hb : b = cs := splitSlash_singleton cs b hcs
      rw [ha, hb, hc]
      rfl
    · simp only [hc, if_false] at h
      cases hs : splitSlash cs with
      | nil => exact absurd hs (splitSlash_ne_nil cs)
      | cons g gs =>
        rw [hs] at h
        have ha : a = c :: g := ((List.cons_eq_cons.mp h).1).symm
        have hgs : gs = [b] := (List.cons_eq_cons.mp h).2
        have hrec : g ++ '/' :: b = cs := by
          apply ih
          rw [hs, hgs]
        rw [ha]
        simp only [List.cons_append, List.cons.injEq, true_and]
        exact hrec

/-- `Ticker.Base` (src/oracle/models.go:37-39): `strings.Split(string(t), "/")[0]`.
The split result is never empty, so the index is in range. -/
def Ticker.Base (t : List Char) : List Char := (splitSlash t).headD []

/-- `Ticker.Quote` (src/oracle/models.go:41-43): `strings.Split(string(t), "/")[1]`.
Index 1 can be out of range (a Go runtime panic), modelled as `none`. -/
def Ticker.Quote (t : List Char) : Option (List Char) := (splitSlash t).get? 1

/-- C8: for every well-formed ticker (a string containing exactly one slash),
the accessors satisfy the round-trip `Base(t) ++ "/" ++ Quote(t) = t`. -/
theorem c8_ticker_base_quote_roundtrip (t : List Char) (h : countChar '/' t = 1) :
    (Ticker.Quote t).isSome = true ∧
    Ticker.Base t ++ '/' :: (Ticker.Quote t).getD [] = t := by
  have hlen : (splitSlash t).length = 2 := by
    rw [splitSlash_length, h]
  cases hs : splitSlash t with
  | nil => rw [hs] at hlen; simp at hlen
  | cons a rest =>
    cases rest with
    | nil => rw [hs] at hlen; simp at hlen
    | cons b rest2 =>
      cases rest2 with
      | nil =>
        constructor
        · simp [Ticker.Quote, hs, List.get?]
        · have := splitSlash_pair t a b hs
          simpa [Ticker.Base, Ticker.Quote, hs, List.get?] using this
      | cons x xs => rw [hs] at hlen; simp at hlen

theorem c8_ticker_base_quote_roundtrip_witness :
    countChar '/' ['I', 'N', 'J', '/', 'U', 'S', 'D', 'T'] = 1 ∧
    ((Ticker.Quote ['I', 'N', 'J', '/', 'U', 'S', 'D', 'T']).isSome = true ∧
     Ticker.Base ['I', 'N', 'J', '/', 'U', 'S', 'D', 'T'] ++
       '/' :: (Ticker.Quote ['I', 'N', 'J', '/', 'U', 'S', 'D', 'T']).getD [] =
       ['I', 'N', 'J', '/', 'U', 'S', 'D', 'T']) :=
  ⟨by decide, c8_ticker_base_quote_roundtrip _ (by decide)⟩

/-- C10: on a ticker with no slash, `Base` returns the whole string while
`Quote` hits index 1 out of range (a Go panic, `none` here); `Quote` succeeds
exactly on strings containing at least one slash. -/
theorem c10_ticker_no_slash (t : List Char) :
    (countChar '/' t = 0 → Ticker.Base t = t ∧ Ticker.Quote t = none) ∧
    ((Ticker.Quote t).isSome = true ↔ 1 ≤ countChar '/' t) := by
  have hlen := splitSlash_length t
  constructor
  · intro h
    rw [h] at hlen
    cases hs : splitSlash t with
    | nil => exact absurd hs (splitSlash_ne_nil t)
    | cons a rest =>
      cases rest with
      | nil =>
        have ha : a = t := splitSlash_singleton t a hs
        constructor
        · simp [Ticker.Base, hs, ha]
        · simp [Ticker.Quote, hs, List.get?]
      | cons b rest2 => rw [hs] at hlen; simp only [List.length_cons] at hlen; omega
  · cases hs : splitSlash t with
    | nil => exact absurd hs (splitSlash_ne_nil t)
    | cons a rest =>
      rw [hs] at hlen
      cases rest with
      | nil =>
        have hq : Ticker.Quote t = none := by simp [Ticker.Quote, hs, List.get?]
        rw [hq]
        simp only [List.length_cons, List.length_nil] at hlen
        constructor
        · intro h; simp at h
        · intro h; omega
      | cons b rest2 =>
        have hq : Ticker.Quote t = some b := by simp [Ticker.Quote, hs, List.get?]
        rw [hq]
        simp only [List.length_cons] at hlen
        constructor
        · intro _; omega
        · intro _; rfl

theorem c10_ticker_no_slash_witness :
    countChar '/' ['B', 'T', 'C'] = 0 ∧
    (Ticker.Base ['B', 'T', 'C'] = ['B', 'T', 'C'] ∧
     Ticker.Quote ['B', 'T', 'C'] = none) :=
  ⟨by decide, (c10_ticker_no_slash ['B', 'T', 'C']).1 (by decide)⟩

/-- `ConvertTimestampToSecond` (src/oracle/feed_stork.go:589-604): uint64
timestamps modelled as `Nat` (the function only compares and divides,
so no wraparound is possible). -/
def ConvertTimestampToSecond (timestamp : Nat) : Nat :=
  if timestamp > 10 ^ 18 then timestamp / 1000000000
  else if timestamp > 10 ^ 15 then timestamp / 1000000
  else if timestamp > 10 ^ 12 then timestamp / 1000
  else timestamp

/-- C7: the cascade of magnitude bands integer-divides by 10^9 / 10^6 / 10^3
above 10^18 / 10^15 / 10^12 respectively and is the identity below, matching
the concrete table in the spec. -/
theorem c7_convert_timestamp_to_second :
    (∀ t : Nat,
      (t > 10 ^ 18 → ConvertTimestampToSecond t = t / 10 ^ 9) ∧
      (t ≤ 10 ^ 18 → t > 10 ^ 15 → ConvertTimestampToSecond t = t / 10 ^ 6) ∧
      (t ≤ 10 ^ 15 → t > 10 ^ 12 → ConvertTimestampToSecond t = t / 10 ^ 3) ∧
      (t ≤ 10 ^ 12 → ConvertTimestampToSecond t = t)) ∧
    ConvertTimestampToSecond 123 = 123 ∧
    ConvertTimestampToSecond 1737468044594731156 = 1737468044 ∧
    ConvertTimestampToSecond 1737468044540691 = 1737468044 ∧
    ConvertTimestampToSecond 1737468044594 = 1737468044 ∧
    ConvertTimestampToSecond 999999999 = 999999999 := by
  refine ⟨fun t => ⟨?_, ?_, ?_, ?_⟩, by decide, by decide, by decide, by decide, by decide⟩
  · intro h
    simp only [ConvertTimestampToSecond, if_pos h]
    norm_num
  · intro h1 h2
    have hnot : ¬ t > 10 ^ 18 := by omega
    simp only [ConvertTimestampToSecond, if_neg hnot, if_pos h2]
    norm_num
  · intro h1 h2
    have hnot1 : ¬ t > 10 ^ 18 := by norm_num at h1 ⊢; omega
    have hnot2 : ¬ t > 10 ^ 15 := by omega
    simp only [ConvertTimestampToSecond, if_neg hnot1, if_neg hnot2, if_pos h2]
    norm_num
  · intro h
    have hnot1 : ¬ t > 10 ^ 18 := by norm_num at h ⊢; omega
    have hnot2 : ¬ t > 10 ^ 15 := by norm_num at h ⊢; omega
    have hnot3 : ¬ t > 10 ^ 12 := by omega
    simp only [ConvertTimestampToSecond, if_neg hnot1, if_neg hnot2, if_neg hnot3]

theorem c7_convert_timestamp_to_second_witness :
    ConvertTimestampToSecond (2 * 10 ^ 18) = 2 * 10 ^ 18 / 10 ^ 9 ∧
    ConvertTimestampToSecond (2 * 10 ^ 15) = 2 * 10 ^ 15 / 10 ^ 6 ∧
    ConvertTimestampToSecond (2 * 10 ^ 12) = 2 * 10 ^ 12 / 10 ^ 3 ∧
    ConvertTimestampToSecond 5 = 5 :=
  ⟨(c7_convert_timestamp_to_second.1 (2 * 10 ^ 18)).1 (by norm_num),
   ((c7_convert_timestamp_to_second.1 (2 * 10 ^ 15)).2.1 (by norm_num) (by norm_num)),
   ((c7_convert_timestamp_to_second.1 (2 * 10 ^ 12)).2.2.1 (by norm_num) (by norm_num)),
   ((c7_convert_timestamp_to_second.1 5).2.2.2 (by norm_num))⟩

end Oracle

namespace Oracle

/-- Constant `MaxStorkTimestampIntervalNano` (src/oracle/stork_fetcher.go:23). -/
def MaxStorkTimestampIntervalNano : Nat := 500000000

/-- Wire types of the Stork fetcher (src/oracle/stork_fetcher.go:241-259).
Prices (`math.LegacyDec`) are modelled as rationals; uint64 timestamps as
`Nat`. -/
structure Signature where
  R : String
  S : String
  V : String
  deriving DecidableEq

structure TimestampedSignature where
  Signature : Signature
  Timestamp : Nat
  MsgHash : String
  deriving DecidableEq

structure SignedPrice where
  PublisherKey : String
  ExternalAssetID : String
  SignatureType : String
  Price : ℚ
  TimestampedSignature : TimestampedSignature
  deriving DecidableEq

structure Data where
  Timestamp : Int
  AssetID : String
  SignatureType : String
  Trigger : String
  Price : String
  SignedPrices : List SignedPrice
  deriving DecidableEq

/-- The newest/oldest accumulation loop of `getTimestampInRange`
(src/oracle/stork_fetcher.go:201-211): `newestTimestamp` starts at 0,
`oldestTimestamp` at `^uint64(0) = 2^64 - 1`. -/
def storkNewestOldest (asset : Data) : Nat × Nat :=
  asset.SignedPrices.foldl
    (fun p sp =>
      (if sp.TimestampedSignature.Timestamp > p.1 then sp.TimestampedSignature.Timestamp else p.1,
       if sp.TimestampedSignature.Timestamp < p.2 then sp.TimestampedSignature.Timestamp else p.2))
    (0, 2 ^ 64 - 1)

/-- `getTimestampInRange` (src/oracle/stork_fetcher.go:200-222). The uint64
subtraction cannot wrap on the path where it is evaluated: with a non-zero
newest, newest is the maximum and oldest the minimum of the same non-empty
list, so newest is at least oldest. -/
def getTimestampInRange (asset : Data) : Except String Nat :=
  if (storkNewestOldest asset).1 = 0 then
    .error ("asset " ++ asset.AssetID ++ " has no price timestamps")
  else if (storkNewestOldest asset).1 - (storkNewestOldest asset).2 > MaxStorkTimestampIntervalNano then
    .error ("asset " ++ asset.AssetID ++ " price timestamps exceed threshold")
  else .ok (storkNewestOldest asset).1

/-- Go `strings.TrimPrefix(s, pre)`. -/
def stripLeading (s pre : String) : String :=
  if s.startsWith pre then s.drop pre.length else s

/-- `CombineSignatureToString` (src/oracle/feed_stork.go:607-613). -/
def CombineSignatureToString (signature : Signature) : String :=
  stripLeading signature.R "0x" ++ stripLeading signature.S "0x" ++ stripLeading signature.V "0x"

/-- Chain-side signed price (`oracletypes.SignedPriceOfAssetPair`). The Go code
stores `common.Hex2Bytes(signature)`; the signature is kept as the combined
hex string here since the byte decoding is an external library call that no
claim inspects. -/
structure SignedPriceOfAssetPair where
  PublisherKey : String
  Timestamp : Nat
  Price : ℚ
  SignatureHex : String
  deriving DecidableEq

/-- `ConvertSignedPrice` (src/oracle/feed_stork.go:576-587). -/
def ConvertSignedPrice (signeds : SignedPrice) : SignedPriceOfAssetPair :=
  { PublisherKey := signeds.PublisherKey
    Timestamp := ConvertTimestampToSecond signeds.TimestampedSignature.Timestamp
    Price := signeds.Price
    SignatureHex := CombineSignatureToString signeds.TimestampedSignature.Signature }

/-- Chain-side `oracletypes.AssetPair`. -/
structure AssetPair where
  AssetId : String
  SignedPrices : List SignedPriceOfAssetPair
  deriving DecidableEq

/-- `ConvertDataToAssetPair` (src/oracle/feed_stork.go:559-573): keeps exactly
the signed prices whose second-granular timestamp equals the reference one. -/
def ConvertDataToAssetPair (data : Data) (assetId : String) (refTimestamp : Nat) : AssetPair :=
  { AssetId := assetId
    SignedPrices := data.SignedPrices.filterMap (fun sp =>
      let newSigned := ConvertSignedPrice sp
      if ConvertTimestampToSecond refTimestamp ≠ newSigned.Timestamp then none
      else some newSigned) }

/-- The `oracle_prices` branch of `storkFetcher.startReadingMessages`
(src/oracle/stork_fetcher.go:169-183): builds the `newPairs` cache update for
one frame; an asset whose `getTimestampInRange` errors is skipped (only a
`max_diff_threshold` counter is emitted). Go map iteration is modelled by the
list order of the decoded frame. -/
def storkFrameNewPairs (data : List (String × Data)) : List (String × AssetPair) :=
  data.filterMap (fun kv =>
    match getTimestampInRange kv.2 with
    | .error _ => none
    | .ok timestamp => some (kv.1, ConvertDataToAssetPair kv.2 kv.1 timestamp))

/-- Written from the words of the spec for claim C1, for comparison only (the
fetcher code has no such step): normalize a publisher timestamp to nanoseconds
based on magnitude (above 10^18 already ns; above 10^15 microseconds; above
10^12 milliseconds; else seconds). -/
def specNormalizeTimestampToNano (timestamp : Nat) : Nat :=
  if timestamp > 10 ^ 18 then timestamp
  else if timestamp > 10 ^ 15 then timestamp * 1000
  else if timestamp > 10 ^ 12 then timestamp * 1000000
  else timestamp * 1000000000

def c1SignedPrice (ts : Nat) : SignedPrice :=
  { PublisherKey := "pub1"
    ExternalAssetID := "BTCUSD"
    SignatureType := "evm"
    Price := 42
    TimestampedSignature :=
      { Signature := { R := "0x01", S := "0x02", V := "0x1b" }
        Timestamp := ts
        MsgHash := "0xabc" } }

/-- Two publisher timestamps denominated in seconds, 2 seconds apart: after the
normalization the spec describes their spread would be 2e9 ns, far above the
500 ms threshold. -/
def c1Asset : Data :=
  { Timestamp := 0
    AssetID := "BTCUSD"
    SignatureType := "evm"
    Trigger := "timer"
    Price := "42"
    SignedPrices := [c1SignedPrice 1737468044, c1SignedPrice 1737468046] }

/-- An asset whose raw timestamps are more than 500000000 apart (spread 10^9),
used to witness the amended C1. -/
def c1AssetWide : Data :=
  { Timestamp := 0
    AssetID := "ETHUSD"
    SignatureType := "evm"
    Trigger := "timer"
    Price := "42"
    SignedPrices := [c1SignedPrice 1000000000, c1SignedPrice 2000000000] }

/-- C1 counterexample: the fetcher does not normalize publisher timestamps
before the spread check; this asset has a normalized (physical) spread of
2e9 ns above the 500000000 ns threshold, yet `getTimestampInRange` succeeds
and the asset is written to the cache, so the claimed discard does not occur. -/
theorem c1_counterexample :
    specNormalizeTimestampToNano 1737468046 - specNormalizeTimestampToNano 1737468044 =
      2000000000 ∧
    getTimestampInRange c1Asset = .ok 1737468046 ∧
    (storkFrameNewPairs [("BTCUSD", c1Asset)]).length = 1 :=
  ⟨by decide, rfl, rfl⟩

/-- C1 amended: no normalization is applied; the raw uint64 publisher
timestamps are compared, and whenever their raw spread exceeds 500000000
(in whatever unit the feed supplied), `getTimestampInRange` errors and no
cache entry is produced for the asset in that frame. -/
theorem c1_amended_raw_spread (asset : Data)
    (h : (storkNewestOldest asset).1 - (storkNewestOldest asset).2 >
      MaxStorkTimestampIntervalNano) :
    (∃ e, getTimestampInRange asset = .error e) ∧
    ∀ k : String, storkFrameNewPairs [(k, asset)] = [] := by
  have h1 : (storkNewestOldest asset).1 ≠ 0 := by
    intro h0
    rw [h0] at h
    simp [MaxStorkTimestampIntervalNano] at h
  have herr : getTimestampInRange asset =
      .error ("asset " ++ asset.AssetID ++ " price timestamps exceed threshold") := by
    simp only [getTimestampInRange, if_neg h1, if_pos h]
  refine ⟨⟨_, herr⟩, fun k => ?_⟩
  simp [storkFrameNewPairs, herr]

theorem c1_amended_raw_spread_witness :
    ((storkNewestOldest c1AssetWide).1 - (storkNewestOldest c1AssetWide).2 >
      MaxStorkTimestampIntervalNano) ∧
    ((∃ e, getTimestampInRange c1AssetWide = .error e) ∧
     ∀ k : String, storkFrameNewPairs [(k, c1AssetWide)] = []) :=
  ⟨by decide, c1_amended_raw_spread c1AssetWide (by decide)⟩

end Oracle

namespace Svc

/-- `oracletypes.OracleType` (generated SDK enum, external to the repo). -/
inductive OracleType
  | Unspecified
  | Band
  | PriceFeed
  | Coinbase
  | Chainlink
  | Razor
  | Dia
  | API3
  | Uma
  | Pyth
  | BandIBC
  | Provider
  | Stork
  deriving DecidableEq, Repr

/-- `oracletypes.ChainlinkReport` (chain-side type): `FeedId` is a nil-able
byte slice. -/
structure ChainlinkReport where
  FeedId : Option (List Nat)
  FullReport : List Nat
  ValidFromTimestamp : Nat
  ObservationsTimestamp : Nat
  deriving DecidableEq

/-- `stork.StorkPriceData` (src/internal/service/oracle/stork/models.go):
the `AssetPair` pointer is nil-able. -/
structure StorkPriceData where
  Ticker : String
  ProviderName : String
  Symbol : String
  Price : ℚ
  AssetPair : Option Oracle.AssetPair
  OracleType : OracleType
  deriving DecidableEq

/-- `chainlink.ChainlinkPriceData`
(src/internal/service/oracle/chainlink/models.go:16-24): the
`ChainlinkReport` pointer is nil-able. -/
structure ChainlinkPriceData where
  Ticker : String
  ProviderName : String
  Symbol : String
  Price : ℚ
  ChainlinkReport : Option ChainlinkReport
  OracleType : OracleType
  deriving DecidableEq

/-- The `types.PriceData` interface
(src/internal/service/oracle/types/types.go:18-25); its two implementations
in this service are the Stork and Chainlink price data records. -/
inductive PriceData
  | stork (d : StorkPriceData)
  | chainlink (d : ChainlinkPriceData)
  deriving DecidableEq

def PriceData.GetOracleType : PriceData → OracleType
  | .stork d => d.OracleType
  | .chainlink d => d.OracleType

def PriceData.GetPrice : PriceData → ℚ
  | .stork d => d.Price
  | .chainlink d => d.Price

def PriceData.GetSymbol : PriceData → String
  | .stork d => d.Symbol
  | .chainlink d => d.Symbol

/-- Outcome of the per-observation validation in `oracleSvc.commitSetPrices`. -/
inductive ValidationOutcome
  | insert
  | drop
  | nilDeref
  deriving DecidableEq, Repr

/-- The validation step of `oracleSvc.commitSetPrices`
(src/internal/service/oracle/service.go:314-344). The Go condition
`chainlinkData.ChainlinkReport.FeedId == nil || chainlinkData.ChainlinkReport == nil`
dereferences the report pointer in its first operand, before the nil check in
the second; with a nil report the dereference is a nil-pointer panic, modelled
as `.nilDeref`. A failed type assertion falls through to insertion. -/
def validatePriceData (priceData : PriceData) : ValidationOutcome :=
  if priceData.GetOracleType = .Stork then
    match priceData with
    | .stork storkData => if storkData.AssetPair = none then .drop else .insert
    | _ => .insert
  else if priceData.GetOracleType = .Chainlink then
    match priceData with
    | .chainlink chainlinkData =>
      match chainlinkData.ChainlinkReport with
      | none => .nilDeref
      | some report => if report.FeedId = none then .drop else .insert
    | _ => .insert
  else
    if priceData.GetPrice = 0 ∨ priceData.GetPrice < 0 then .drop else .insert

def c2NilReportInput : PriceData :=
  .chainlink
    { Ticker := "BTC/USD"
      ProviderName := "chainlink"
      Symbol := "BTC/USD"
      Price := 1
      ChainlinkReport := none
      OracleType := .Chainlink }

def c2EmptyFeedIdInput : PriceData :=
  .chainlink
    { Ticker := "BTC/USD"
      ProviderName := "chainlink"
      Symbol := "BTC/USD"
      Price := 1
      ChainlinkReport := some
        { FeedId := none
          FullReport := [1, 2]
          ValidFromTimestamp := 10
          ObservationsTimestamp := 11 }
      OracleType := .Chainlink }

def c2NilAssetPairInput : PriceData :=
  .stork
    { Ticker := "INJ/USDT"
      ProviderName := "stork"
      Symbol := "INJ/USDT"
      Price := 1
      AssetPair := none
      OracleType := .Stork }

def c2NegativePriceInput : PriceData :=
  .stork
    { Ticker := "INJ/USDT"
      ProviderName := "other"
      Symbol := "INJ/USDT"
      Price := -1
      AssetPair := none
      OracleType := .PriceFeed }

def c2OkOtherInput : PriceData :=
  .stork
    { Ticker := "INJ/USDT"
      ProviderName := "other"
      Symbol := "INJ/USDT"
      Price := 5
      AssetPair := none
      OracleType := .PriceFeed }

/-- C2: evaluation of the batcher validation. A Chainlink observation with a
nil report is NOT dropped: the check dereferences the nil pointer and panics,
contradicting the claim; the remaining validation rules behave as claimed. -/
theorem c2_validation_nil_report_panics :
    validatePriceData c2NilReportInput = .nilDeref ∧
    validatePriceData c2NilAssetPairInput = .drop ∧
    validatePriceData c2EmptyFeedIdInput = .drop ∧
    validatePriceData c2NegativePriceInput = .drop ∧
    validatePriceData c2OkOtherInput = .insert :=
  ⟨rfl, rfl, rfl, rfl, rfl⟩

/-- Relay message envelopes composed by the service
(`oracletypes.MsgRelayStorkPrices`, `oracletypes.MsgRelayChainlinkPrices`). -/
inductive Msg
  | relayStorkPrices (sender : String) (assetPairs : List (Option Oracle.AssetPair))
  | relayChainlinkPrices (sender : String) (reports : List (Option ChainlinkReport))
  deriving DecidableEq

/-- `composeStorkOracleMsgs` (src/internal/service/oracle/service.go:180-208). -/
def composeStorkOracleMsgs (sender : String) (priceBatch : List PriceData) : List Msg :=
  if priceBatch.length = 0 then []
  else
    let assetPairs := priceBatch.filterMap (fun pData =>
      if pData.GetOracleType ≠ .Stork then none
      else
        match pData with
        | .stork storkData => some storkData.AssetPair
        | _ => none)
    if assetPairs.length > 0 then [.relayStorkPrices sender assetPairs] else []

/-- `composeChainlinkOracleMsgs` (src/internal/service/oracle/service.go:210-238). -/
def composeChainlinkOracleMsgs (sender : String) (priceBatch : List PriceData) : List Msg :=
  if priceBatch.length = 0 then []
  else
    let reports := priceBatch.filterMap (fun pData =>
      if pData.GetOracleType ≠ .Chainlink then none
      else
        match pData with
        | .chainlink chainlinkData => some chainlinkData.ChainlinkReport
        | _ => none)
    if reports.length > 0 then [.relayChainlinkPrices sender reports] else []

/-- `composeMsgs` (src/internal/service/oracle/service.go:240-244). -/
def composeMsgs (sender : String) (priceBatch : List PriceData) : List Msg :=
  composeStorkOracleMsgs sender priceBatch ++ composeChainlinkOracleMsgs sender priceBatch

/-- `abci.TxResponse` inside `txtypes.BroadcastTxResponse` (SDK types). -/
structure TxResponse where
  Code : Nat
  TxHash : String
  Height : Int
  deriving DecidableEq

structure BroadcastTxResponse where
  TxResponse : Option TxResponse
  deriving DecidableEq

/-- `oracleSvc.broadcastToClient`
(src/internal/service/oracle/service.go:360-412), applied to the result of the
external `SyncBroadcastMsgWithContext` call (`.error` = transport error).
Returns the success flag the Go function returns. -/
def broadcastToClient (callResult : Except String BroadcastTxResponse) : Bool :=
  match callResult with
  | .error _ => false
  | .ok txResp =>
    match txResp.TxResponse with
    | some r => if r.Code ≠ 0 then false else true
    | none => false

/-- A chain client, reduced to the one attribute composition and broadcast
depend on: its sender identity. -/
structure Client where
  sender : String
  deriving DecidableEq

/-- Trace of one `submitBatch` flush: the clients whose loop body ran, the
clients actually broadcast to, and the successful client if any. -/
structure SubmitTrace where
  visited : List Client
  broadcasted : List Client
  success : Option Client
  deriving DecidableEq

/-- The client-failover loop of `submitBatch` inside `oracleSvc.commitSetPrices`
(src/internal/service/oracle/service.go:282-297), instrumented with the clients
it touches. `sdkCall c msgs` stands for the external
`SyncBroadcastMsgWithContext` result for client `c`. An empty composition for
the current client executes `return`: the flush ends with no further client
visited. -/
def submitBatchLoop (sdkCall : Client → List Msg → Except String BroadcastTxResponse)
    (priceBatch : List PriceData) : List Client → SubmitTrace
  | [] => ⟨[], [], none⟩
  | c :: rest =>
    let msgs := composeMsgs c.sender priceBatch
    if msgs.length = 0 then ⟨[c], [], none⟩
    else if broadcastToClient (sdkCall c msgs) then ⟨[c], [c], some c⟩
    else
      let t := submitBatchLoop sdkCall priceBatch rest
      ⟨c :: t.visited, c :: t.broadcasted, t.success⟩

/-- `submitBatch` (src/internal/service/oracle/service.go:267-297): an empty
batch returns before the loop. -/
def submitBatch (sdkCall : Client → List Msg → Except String BroadcastTxResponse)
    (clients : List Client) (currentBatch : List PriceData) : SubmitTrace :=
  if currentBatch.length = 0 then ⟨[], [], none⟩
  else submitBatchLoop sdkCall currentBatch clients

end Svc

namespace Svc

/-- Unfolding equation for one step of the flush loop. -/
theorem submitBatchLoop_cons (sdkCall : Client → List Msg → Except String BroadcastTxResponse)
    (priceBatch : List PriceData) (c : Client) (rest : List Client) :
    submitBatchLoop sdkCall priceBatch (c :: rest) =
      if (composeMsgs c.sender priceBatch).length = 0 then ⟨[c], [], none⟩
      else if broadcastToClient (sdkCall c (composeMsgs c.sender priceBatch)) then
        ⟨[c], [c], some c⟩
      else
        ⟨c :: (submitBatchLoop sdkCall priceBatch rest).visited,
         c :: (submitBatchLoop sdkCall priceBatch rest).broadcasted,
         (submitBatchLoop sdkCall priceBatch rest).success⟩ := by
  simp only [submitBatchLoop]

def c3c1 : Client := ⟨"sender1"⟩

def c3c2 : Client := ⟨"sender2"⟩

/-- An observation of a non-Stork, non-Chainlink oracle type with a positive
price: it passes batch validation but `composeMsgs` (which only builds Stork
and Chainlink relay messages) composes nothing from it. -/
def c3PriceFeedData : PriceData :=
  .stork
    { Ticker := "ATOM/USDT"
      ProviderName := "other"
      Symbol := "ATOM/USDT"
      Price := 7
      AssetPair := none
      OracleType := .PriceFeed }

def c3Batch : List PriceData := [c3PriceFeedData]

/-- An SDK stub whose every broadcast succeeds with code 0. -/
def c3sdkCall : Client → List Msg → Except String BroadcastTxResponse :=
  fun _ _ => .ok ⟨some ⟨0, "HASH", 1⟩⟩

/-- C3 counterexample: the batch is non-empty, the first client composes an
empty message list, and the flush returns at once - the trace visits only the
first client, no broadcast happens and the second client is never tried, even
though every broadcast of the stub SDK would succeed. The claim that an empty
composition merely skips to the next client is false. -/
theorem c3_counterexample :
    c3Batch.length ≠ 0 ∧
    (composeMsgs c3c1.sender c3Batch).length = 0 ∧
    broadcastToClient (c3sdkCall c3c2 []) = true ∧
    submitBatch c3sdkCall [c3c1, c3c2] c3Batch = ⟨[c3c1], [], none⟩ :=
  ⟨by decide, by decide, by decide, by decide⟩

/-- C3 amended: during one flush, encountering a client whose composed message
list is empty ends the flush immediately - that client is the last one
visited, no broadcast is attempted from it on, and no success is reported. -/
theorem c3_amended_empty_composition_ends_flush
    (sdkCall : Client → List Msg → Except String BroadcastTxResponse)
    (priceBatch : List PriceData) (c : Client) (rest : List Client)
    (hne : priceBatch.length ≠ 0)
    (h : (composeMsgs c.sender priceBatch).length = 0) :
    submitBatch sdkCall (c :: rest) priceBatch = ⟨[c], [], none⟩ := by
  rw [submitBatch, if_neg hne, submitBatchLoop_cons, if_pos h]

theorem c3_amended_empty_composition_ends_flush_witness :
    (c3Batch.length ≠ 0 ∧ (composeMsgs c3c1.sender c3Batch).length = 0) ∧
    submitBatch c3sdkCall [c3c1, c3c2] c3Batch = ⟨[c3c1], [], none⟩ :=
  ⟨⟨by decide, by decide⟩,
   c3_amended_empty_composition_ends_flush c3sdkCall c3Batch c3c1 [c3c2]
     (by decide) (by decide)⟩

/-- C4: a broadcast is reported successful exactly when the SDK call returns
without error with a non-nil TxResponse of code 0; with a non-empty
composition the flush loop stops at a successful client and moves to the next
client on failure. -/
theorem c4_broadcast_success_iff :
    (∀ r : Except String BroadcastTxResponse,
      broadcastToClient r = true ↔
        ∃ raw tx, r = .ok raw ∧ raw.TxResponse = some tx ∧ tx.Code = 0) ∧
    (∀ (sdkCall : Client → List Msg → Except String BroadcastTxResponse)
       (priceBatch : List PriceData) (c : Client) (rest : List Client),
      (composeMsgs c.sender priceBatch).length ≠ 0 →
      (broadcastToClient (sdkCall c (composeMsgs c.sender priceBatch)) = true →
        submitBatchLoop sdkCall priceBatch (c :: rest) = ⟨[c], [c], some c⟩) ∧
      (broadcastToClient (sdkCall c (composeMsgs c.sender priceBatch)) = false →
        submitBatchLoop sdkCall priceBatch (c :: rest) =
          ⟨c :: (submitBatchLoop sdkCall priceBatch rest).visited,
           c :: (submitBatchLoop sdkCall priceBatch rest).broadcasted,
           (submitBatchLoop sdkCall priceBatch rest).success⟩)) := by
  constructor
  · intro r
    cases r with
    | error e =>
      constructor
      · intro h
        exact absurd h (by simp [broadcastToClient])
      · rintro ⟨raw, tx, hr, -, -⟩
        exact Except.noConfusion hr
    | ok raw =>
      cases hraw : raw.TxResponse with
      | none =>
        constructor
        · intro h
          rw [broadcastToClient, hraw] at h
          exact absurd h (by simp)
        · rintro ⟨raw2, tx, hr, htx, -⟩
          have hr2 : raw2 = raw := by
            injection hr with h2
            exact h2.symm
          rw [hr2, hraw] at htx
          exact Option.noConfusion htx
      | some tx0 =>
        by_cases hc : tx0.Code = 0
        · constructor
          · intro _
            exact ⟨raw, tx0, rfl, hraw, hc⟩
          · intro _
            simp [broadcastToClient, hraw, hc]
        · constructor
          · intro h
            simp [broadcastToClient, hraw, hc] at h
          · rintro ⟨raw2, tx, hr, htx, hcode⟩
            have hr2 : raw2 = raw := by
              injection hr with h2
              exact h2.symm
            rw [hr2, hraw] at htx
            injection htx with h3
            rw [← h3] at hcode
            exact absurd hcode hc
  · intro sdkCall priceBatch c rest hne
    constructor
    · intro hb
      rw [submitBatchLoop_cons, if_neg hne, if_pos hb]
    · intro hb
      rw [submitBatchLoop_cons, if_neg hne, hb]
      simp

def c4Client : Client := ⟨"senderA"⟩

def c4StorkData : PriceData :=
  .stork
    { Ticker := "BTC/USDT"
      ProviderName := "stork"
      Symbol := "BTC/USDT"
      Price := 9
      AssetPair := some ⟨"BTCUSD", []⟩
      OracleType := .Stork }

def c4Batch : List PriceData := [c4StorkData]

def c4sdkCall : Client → List Msg → Except String BroadcastTxResponse :=
  fun _ _ => .ok ⟨some ⟨0, "HASH", 1⟩⟩

theorem c4_broadcast_success_iff_witness :
    (broadcastToClient (.ok ⟨some ⟨0, "HASH", 1⟩⟩) = true ↔
      ∃ raw tx, (Except.ok ⟨some ⟨0, "HASH", 1⟩⟩ :
          Except String BroadcastTxResponse) = .ok raw ∧
        raw.TxResponse = some tx ∧ tx.Code = 0) ∧
    ((composeMsgs c4Client.sender c4Batch).length ≠ 0 ∧
     (broadcastToClient (c4sdkCall c4Client (composeMsgs c4Client.sender c4Batch)) = true →
       submitBatchLoop c4sdkCall c4Batch [c4Client] = ⟨[c4Client], [c4Client], some c4Client⟩)) :=
  ⟨c4_broadcast_success_iff.1 _,
   by decide,
   (c4_broadcast_success_iff.2 c4sdkCall c4Batch c4Client [] (by decide)).1⟩

end Svc

namespace Oracle

/-- Go `time.Second` and `time.Minute` in nanoseconds (`time.Duration` is an
int64 nanosecond count). -/
def timeSecond : Int := 1000000000

def timeMinute : Int := 60 * timeSecond

/-- `errors.Wrapf` from github.com/pkg/errors, as documented: wrapping a nil
error returns nil. -/
def errorsWrapf (err : Option String) (msg : String) : Option String :=
  match err with
  | none => none
  | some e => some (msg ++ ": " ++ e)

/-- `oracletypes.OracleType_value` (generated SDK enum mapping, external to
the repo). -/
def OracleType_value (s : String) : Option Int :=
  if s = "Unspecified" then some 0
  else if s = "Band" then some 1
  else if s = "PriceFeed" then some 2
  else if s = "Coinbase" then some 3
  else if s = "Chainlink" then some 4
  else if s = "Razor" then some 5
  else if s = "Dia" then some 6
  else if s = "API3" then some 7
  else if s = "Uma" then some 8
  else if s = "Pyth" then some 9
  else if s = "BandIBC" then some 10
  else if s = "Provider" then some 11
  else if s = "Stork" then some 12
  else none

/-- `FeedConfig` (src/unnamed/part_007:40-46, the TOML feed declaration). -/
structure FeedConfig where
  ProviderName : String
  Ticker : String
  PullInterval : String
  ObservationSource : String
  OracleType : String
  deriving DecidableEq

/-- The fields of `dynamicPriceFeed` set by its constructor
(src/oracle/service.go:590-606). -/
structure DynamicPriceFeed where
  ticker : String
  providerName : String
  interval : Int
  dotDagSource : String
  oracleType : Int
  deriving DecidableEq

/-- `NewDynamicPriceFeed` (src/oracle/service.go:561-609), with the external
`time.ParseDuration` passed in (nanoseconds on success). Go returns the pair
`(PricePuller, error)`; note that on a parsed interval below one second the
code executes `err = errors.Wrapf(err, ...)` where `err` is nil, so it
returns a nil puller AND a nil error. -/
def NewDynamicPriceFeed (parseDuration : String → Except String Int)
    (cfg : FeedConfig) : Option DynamicPriceFeed × Option String :=
  match (if cfg.PullInterval.length > 0 then
           match parseDuration cfg.PullInterval with
           | .error e =>
             Except.error (errorsWrapf (some e)
               ("failed to parse pull interval: " ++ cfg.PullInterval ++
                 " (expected format: 60s)"))
           | .ok interval =>
             if interval < timeSecond then
               Except.error (errorsWrapf none
                 ("failed to parse pull interval: " ++ cfg.PullInterval ++
                   " (minimum interval = 1s)"))
             else Except.ok interval
         else Except.ok timeMinute : Except (Option String) Int) with
  | .error e => (none, e)
  | .ok pullInterval =>
    match (if cfg.OracleType = "" then Except.ok (2 : Int)
           else
             match OracleType_value cfg.OracleType with
             | none =>
               Except.error (some ("oracle type does not exist: " ++ cfg.OracleType))
             | some v => Except.ok v : Except (Option String) Int) with
    | .error e => (none, e)
    | .ok oracleTypeV =>
      (some { ticker := cfg.Ticker
              providerName := cfg.ProviderName
              interval := pullInterval
              dotDagSource := cfg.ObservationSource
              oracleType := oracleTypeV }, none)

/-- The fields of the streaming `storkPriceFeed` set by its constructor
(src/oracle/feed_stork.go:494-510); the fetcher handle is an interface the
constructor stores but never inspects, so it is omitted. -/
structure StorkPriceFeedRec where
  providerName : String
  ticker : String
  interval : Int
  oracleType : Int
  deriving DecidableEq

/-- `NewStorkPriceFeed` (src/oracle/feed_stork.go:465-513): same shape as the
dynamic constructor, with the oracle type defaulting to Stork and the
sub-second branch carrying the message `minimum interval = 30s` while
checking `interval < time.Second`; the same `errors.Wrapf(nil, ...)` slip
makes that branch return a nil error. -/
def NewStorkPriceFeed (parseDuration : String → Except String Int)
    (cfg : FeedConfig) : Option StorkPriceFeedRec × Option String :=
  match (if cfg.PullInterval.length > 0 then
           match parseDuration cfg.PullInterval with
           | .error e =>
             Except.error (errorsWrapf (some e)
               ("failed to parse pull interval: " ++ cfg.PullInterval ++
                 " (expected format: 60s)"))
           | .ok interval =>
             if interval < timeSecond then
               Except.error (errorsWrapf none
                 ("failed to parse pull interval: " ++ cfg.PullInterval ++
                   " (minimum interval = 30s)"))
             else Except.ok interval
         else Except.ok timeMinute : Except (Option String) Int) with
  | .error e => (none, e)
  | .ok pullInterval =>
    match (if cfg.OracleType = "" then Except.ok (12 : Int)
           else
             match OracleType_value cfg.OracleType with
             | none =>
               Except.error (some ("oracle type does not exist: " ++ cfg.OracleType))
             | some v => Except.ok v : Except (Option String) Int) with
    | .error e => (none, e)
    | .ok oracleTypeV =>
      (some { providerName := cfg.ProviderName
              ticker := cfg.Ticker
              interval := pullInterval
              oracleType := oracleTypeV }, none)

def c5parse : String → Except String Int :=
  fun s => if s = "500ms" then .ok 500000000 else .error "unknown unit"

def c5cfg : FeedConfig :=
  { ProviderName := "binance_v3"
    Ticker := "INJ/USDT"
    PullInterval := "500ms"
    ObservationSource := "ticker [type=http]"
    OracleType := "" }

def c5cfgEmptyInterval : FeedConfig :=
  { c5cfg with PullInterval := "" }

/-- C5: evaluation at the failing input. A pull interval that parses to 500 ms
(below one second) makes both constructors return a nil puller AND a nil
error - `errors.Wrapf(nil, ...)` returns nil - contradicting the claimed
non-nil error; the empty pull interval does default to one minute
(60e9 ns). -/
theorem c5_sub_second_interval_returns_nil_error :
    NewDynamicPriceFeed c5parse c5cfg = (none, none) ∧
    NewStorkPriceFeed c5parse c5cfg = (none, none) ∧
    NewDynamicPriceFeed c5parse c5cfgEmptyInterval =
      (some { ticker := "INJ/USDT"
              providerName := "binance_v3"
              interval := 60000000000
              dotDagSource := "ticker [type=http]"
              oracleType := 2 }, none) ∧
    NewStorkPriceFeed c5parse c5cfgEmptyInterval =
      (some { providerName := "binance_v3"
              ticker := "INJ/USDT"
              interval := 60000000000
              oracleType := 12 }, none) :=
  ⟨rfl, rfl, rfl, rfl⟩

end Oracle

namespace Pipeline

/-- `pipeline.RunStatus` values, as used by the runner
(src/unnamed/part_011:50,147,200,202; the declaring file is not under src/). -/
inductive RunStatus
  | running
  | suspended
  | errored
  | completed
  deriving DecidableEq, Repr

/-- The dynamic value held by a pipeline `Result` (Go `interface{}`), reduced
to the kinds `dynamicPriceFeed.PullPrice` distinguishes: `decimal.Decimal`,
`float64` (its payload kept as the exact rational `decimal.NewFromFloat`
produces), `string`, and everything else. -/
inductive PipeValue
  | dec (d : ℚ)
  | float (f : ℚ)
  | str (s : String)
  | other
  deriving DecidableEq

/-- `pipeline.Result` (src/pipeline/common.go:93-96). -/
structure ResultR where
  Value : PipeValue
  Error : Option String
  deriving DecidableEq

/-- `pipeline.FinalResult` (src/pipeline/common.go:116-120). -/
structure FinalResult where
  Values : List PipeValue
  AllErrors : List (Option String)
  FatalErrors : List (Option String)
  deriving DecidableEq

/-- `FinalResult.HasFatalErrors` (src/pipeline/common.go:123-130): any
non-nil entry. -/
def FinalResult.HasFatalErrors (result : FinalResult) : Bool :=
  result.FatalErrors.any (fun e => e ≠ none)

/-- `FinalResult.HasErrors` (src/pipeline/common.go:133-140). -/
def FinalResult.HasErrors (result : FinalResult) : Bool :=
  result.AllErrors.any (fun e => e ≠ none)

/-- `FinalResult.SingularResult` (src/pipeline/common.go:143-148): requires
exactly one fatal-error slot and exactly one value. -/
def FinalResult.SingularResult (result : FinalResult) : Except String ResultR :=
  match result.FatalErrors, result.Values with
  | [e], [v] => .ok { Value := v, Error := e }
  | _, _ =>
    .error "cannot cast FinalResult to singular result; it does not have exactly 1 error and exactly 1 output"

/-- The fields of `pipeline.Run` that `dynamicPriceFeed.PullPrice` reads.
The struct declaration file is not under src/; the shape follows its uses in
the runner (src/unnamed/part_011:195-203) and `Run.HasFatalErrors` mirrors
the `FinalResult` method of the same name. -/
structure Run where
  State : RunStatus
  AllErrors : List (Option String)
  FatalErrors : List (Option String)
  deriving DecidableEq

def Run.HasFatalErrors (run : Run) : Bool :=
  run.FatalErrors.any (fun e => e ≠ none)

def Run.HasErrors (run : Run) : Bool :=
  run.AllErrors.any (fun e => e ≠ none)

/-- The result classification of `dynamicPriceFeed.PullPrice`
(src/oracle/service.go:650-735): `execResult` is the outcome of
`runner.ExecuteRun` paired with the `FinalResult` of its task-run results
(`.error` = ExecuteRun returned an error); `parseDec` stands for the external
`decimal.NewFromString`. Returns the signed decimal price or the error. -/
def dynamicPullPrice (parseDec : String → Option ℚ)
    (execResult : Except String (Run × FinalResult)) : Except String ℚ :=
  match execResult with
  | .error e => .error ("failed to execute pipeline run: " ++ e)
  | .ok (run, finalResult) =>
    if run.State ≠ .completed then
      if run.HasFatalErrors then .error "final run result has fatal errors"
      else .error "expected run to be completed, yet got another state"
    else if finalResult.HasFatalErrors then
      .error "final run result has fatal errors"
    else
      match finalResult.SingularResult with
      | .error e => .error ("failed to get single result of pipeline run: " ++ e)
      | .ok res =>
        match res.Value with
        | .dec price => .ok price
        | .float floatPrice => .ok floatPrice
        | .str someString =>
          match parseDec someString with
          | some price => .ok price
          | none =>
            .error "expected pipeline result as string, decimal.Decimal or float64"
        | .other => .error "value is neither decimals, float64 nor string"

/-- C6: `PullPrice` errors whenever the run is not completed or the final
result has fatal errors; on a completed run with a single clean terminal
value it yields a price exactly when the value is a decimal, a float64, or a
string the decimal parser accepts. -/
theorem c6_dynamic_pull_price (parseDec : String → Option ℚ) :
    (∀ (run : Run) (fr : FinalResult), run.State ≠ .completed →
      ∃ e, dynamicPullPrice parseDec (.ok (run, fr)) = .error e) ∧
    (∀ (run : Run) (fr : FinalResult), fr.HasFatalErrors = true →
      ∃ e, dynamicPullPrice parseDec (.ok (run, fr)) = .error e) ∧
    (∀ (run : Run) (fr : FinalResult) (v : PipeValue) (e0 : Option String),
      run.State = .completed →
      fr.HasFatalErrors = false →
      fr.Values = [v] →
      fr.FatalErrors = [e0] →
      ((∃ p, dynamicPullPrice parseDec (.ok (run, fr)) = .ok p) ↔
        ((∃ d, v = .dec d) ∨ (∃ f, v = .float f) ∨
         (∃ s d, v = .str s ∧ parseDec s = some d)))) := by
  refine ⟨fun run fr hst => ?_, fun run fr hf => ?_, fun run fr v e0 hst hnf hv he => ?_⟩
  · rw [dynamicPullPrice, if_pos hst]
    by_cases hfe : run.HasFatalErrors
    · exact ⟨_, by rw [if_pos hfe]⟩
    · exact ⟨_, by rw [if_neg hfe]⟩
  · by_cases hst : run.State ≠ RunStatus.completed
    · rw [dynamicPullPrice, if_pos hst]
      by_cases hfe : run.HasFatalErrors
      · exact ⟨_, by rw [if_pos hfe]⟩
      · exact ⟨_, by rw [if_neg hfe]⟩
    · rw [dynamicPullPrice, if_neg hst, if_pos hf]
      exact ⟨_, rfl⟩
  · have hsing : fr.SingularResult = .ok { Value := v, Error := e0 } := by
      rw [FinalResult.SingularResult, he, hv]
    rw [dynamicPullPrice, if_neg (by simp [hst]), if_neg (by simp [hnf]), hsing]
    dsimp only
    cases v with
    | dec d =>
      constructor
      · intro _; exact Or.inl ⟨d, rfl⟩
      · intro _; exact ⟨d, rfl⟩
    | float f =>
      constructor
      · intro _; exact Or.inr (Or.inl ⟨f, rfl⟩)
      · intro _; exact ⟨f, rfl⟩
    | str s =>
      dsimp only
      constructor
      · intro hp
        rcases hp with ⟨p, hp⟩
        cases hps : parseDec s with
        | none =>
          rw [hps] at hp
          exact Except.noConfusion hp
        | some d => exact Or.inr (Or.inr ⟨s, d, rfl, hps⟩)
      · rintro (⟨d, hd⟩ | ⟨f, hf2⟩ | ⟨s2, d, hs2, hps⟩)
        · exact PipeValue.noConfusion hd
        · exact PipeValue.noConfusion hf2
        · have hss : s2 = s := by injection hs2.symm
          rw [hss] at hps
          refine ⟨d, ?_⟩
          rw [hps]
    | other =>
      constructor
      · rintro ⟨p, hp⟩
        exact Except.noConfusion hp
      · rintro (⟨d, hd⟩ | ⟨f, hf2⟩ | ⟨s2, d, hs2, hps⟩)
        · exact PipeValue.noConfusion hd
        · exact PipeValue.noConfusion hf2
        · exact PipeValue.noConfusion hs2

def c6parse : String → Option ℚ :=
  fun s => if s = "4.5" then some (9 / 2) else none

def c6CleanRun : Run :=
  { State := .completed, AllErrors := [none], FatalErrors := [none] }

def c6CleanResult : FinalResult :=
  { Values := [.dec 3], AllErrors := [none], FatalErrors := [none] }

def c6ErroredRun : Run :=
  { State := .errored, AllErrors := [some "boom"], FatalErrors := [some "boom"] }

def c6FatalResult : FinalResult :=
  { Values := [.other], AllErrors := [some "boom"], FatalErrors := [some "boom"] }

theorem c6_dynamic_pull_price_witness :
    (∃ e, dynamicPullPrice c6parse (.ok (c6ErroredRun, c6CleanResult)) = .error e) ∧
    (∃ e, dynamicPullPrice c6parse (.ok (c6CleanRun, c6FatalResult)) = .error e) ∧
    ((∃ p, dynamicPullPrice c6parse (.ok (c6CleanRun, c6CleanResult)) = .ok p) ↔
      ((∃ d, PipeValue.dec 3 = .dec d) ∨ (∃ f, PipeValue.dec 3 = .float f) ∨
       (∃ s d, PipeValue.dec 3 = .str s ∧ c6parse s = some d))) :=
  ⟨(c6_dynamic_pull_price c6parse).1 c6ErroredRun c6CleanResult (by decide),
   (c6_dynamic_pull_price c6parse).2.1 c6CleanRun c6FatalResult (by decide),
   (c6_dynamic_pull_price c6parse).2.2 c6CleanRun c6CleanResult (.dec 3) none
     rfl (by decide) rfl rfl⟩

/-- `isRetryableHTTPError` (src/pipeline/common.go:81-90). Go `int` is
modelled as `Int`; `err` presence as a Bool. -/
def isRetryableHTTPError (statusCode : Int) (errPresent : Bool) : Bool :=
  if statusCode ≥ 400 ∧ statusCode < 500 then false
  else if statusCode ≥ 500 then true
  else errPresent

/-- `pipeline.RunInfo` (src/pipeline/common.go:65-68). -/
structure RunInfo where
  IsRetryable : Bool
  IsPending : Bool
  deriving DecidableEq

/-- The request-failure path of `HTTPTask.Run` (src/pipeline/common.go:494-497):
when `makeHTTPRequest` returns an error the task reports
`RunInfo{IsRetryable: isRetryableHTTPError(statusCode, err)}` with a non-nil
err. -/
def httpTaskRunInfoOnRequestError (statusCode : Int) : RunInfo :=
  { IsRetryable := isRetryableHTTPError statusCode true, IsPending := false }

/-- C9: a failed HTTP request with a 4xx status is classified non-retryable
and one with a 5xx (or higher) status retryable. -/
theorem c9_http_retryability (statusCode : Int) :
    (400 ≤ statusCode → statusCode ≤ 499 →
      (httpTaskRunInfoOnRequestError statusCode).IsRetryable = false) ∧
    (500 ≤ statusCode →
      (httpTaskRunInfoOnRequestError statusCode).IsRetryable = true) := by
  constructor
  · intro h1 h2
    have hc : 400 ≤ statusCode ∧ statusCode < 500 := ⟨h1, by omega⟩
    simp only [httpTaskRunInfoOnRequestError, isRetryableHTTPError, if_pos hc]
  · intro h
    have hc : ¬(400 ≤ statusCode ∧ statusCode < 500) := by omega
    simp only [httpTaskRunInfoOnRequestError, isRetryableHTTPError, if_neg hc,
      if_pos h]

theorem c9_http_retryability_witness :
    (httpTaskRunInfoOnRequestError 404).IsRetryable = false ∧
    (httpTaskRunInfoOnRequestError 503).IsRetryable = true :=
  ⟨(c9_http_retryability 404).1 (by norm_num) (by norm_num),
   (c9_http_retryability 503).2 (by norm_num)⟩

end Pipeline
